import Mathlib

/-!
Verification of the Document Projection Engine of the `memoir` repository.

The definitions below are a shallow embedding of `memoir/core/projections.py`
and `memoir/services/projection.py`.  Python `datetime` timestamps are
modelled as natural-number clock values threaded explicitly into every
mutating operation (`now : Nat`); Python floats (theme strength) are
modelled as rationals; Python dictionaries are modelled as association
lists; Python methods that mutate `self` become functions returning the
updated value (paired with the Python return value where there is one).
-/

/-- The `SectionState` from projections.py: state of a section in a projection. -/
inductive SectionState where
  | generated
  | locked
  | draft
  | empty
  deriving DecidableEq, Repr

/-- The `UpdateMode` from projections.py: how to update a projection. -/
inductive UpdateMode where
  | regenerate
  | evolve
  | append
  | refresh
  deriving DecidableEq, Repr

/-- The `.value` string of an `UpdateMode`, as in the Python `str` enum. -/
def UpdateMode.value : UpdateMode → String
  | .regenerate => "regenerate"
  | .evolve => "evolve"
  | .append => "append"
  | .refresh => "refresh"

/-- Inverse of `UpdateMode.value`: the Python constructor `UpdateMode(s)`,
which raises `ValueError` on an unknown string (modelled as `none`). -/
def UpdateMode.ofValue : String → Option UpdateMode
  | "regenerate" => some .regenerate
  | "evolve" => some .evolve
  | "append" => some .append
  | "refresh" => some .refresh
  | _ => none

/-- The `ProjectionStyle` from projections.py. -/
inductive ProjectionStyle where
  | chronological
  | thematic
  | by_contributor
  | questions
  | freeform
  deriving DecidableEq, Repr

/-- The `.value` string of a `ProjectionStyle`. -/
def ProjectionStyle.value : ProjectionStyle → String
  | .chronological => "chronological"
  | .thematic => "thematic"
  | .by_contributor => "by_contributor"
  | .questions => "questions"
  | .freeform => "freeform"

/-- The Python constructor `ProjectionStyle(s)` (`none` models `ValueError`). -/
def ProjectionStyle.ofValue : String → Option ProjectionStyle
  | "chronological" => some .chronological
  | "thematic" => some .thematic
  | "by_contributor" => some .by_contributor
  | "questions" => some .questions
  | "freeform" => some .freeform
  | _ => none

/-- The `ProjectionLength` from projections.py. -/
inductive ProjectionLength where
  | summary
  | standard
  | comprehensive
  deriving DecidableEq, Repr

/-- The `.value` string of a `ProjectionLength`. -/
def ProjectionLength.value : ProjectionLength → String
  | .summary => "summary"
  | .standard => "standard"
  | .comprehensive => "comprehensive"

/-- The Python constructor `ProjectionLength(s)` (`none` models `ValueError`). -/
def ProjectionLength.ofValue : String → Option ProjectionLength
  | "summary" => some .summary
  | "standard" => some .standard
  | "comprehensive" => some .comprehensive
  | _ => none

/-- The `DiscoveredTheme` from projections.py.  `strength` is a Python float in
[0, 1]; it is modelled as a rational. -/
structure DiscoveredTheme where
  theme : String
  description : String := ""
  evidence : List String := []
  strength : ℚ := 1
  source_content_ids : List String := []
  deriving DecidableEq, Repr

/-- The `NarrativeContext` from projections.py.  `key_facts` (a Python dict) is
modelled as an association list; `updated_at` as a `Nat` clock value. -/
structure NarrativeContext where
  summary : String := ""
  key_facts : List (String × String) := []
  themes : List DiscoveredTheme := []
  suggested_topics : List String := []
  covered_topics : List String := []
  emotional_tone : String := "neutral"
  voice_notes : String := ""
  updated_at : Nat := 0
  deriving DecidableEq, Repr

/-- Python's `str.lower()`: lower-case every character.  (Lean's own
`String.toLower` is semantically the same map but does not reduce in the
kernel, so the embedding uses this executable form.) -/
def pyLower (s : String) : String := ⟨s.data.map Char.toLower⟩

/-- The in-place merge performed by `add_theme` on a name match: extend
evidence and content ids, bump strength by 0.1 capped at 1. -/
def mergeTheme (e t : DiscoveredTheme) : DiscoveredTheme :=
  { e with
    evidence := e.evidence ++ t.evidence
    source_content_ids := e.source_content_ids ++ t.source_content_ids
    strength := min 1 (e.strength + 1/10) }

/-- The `NarrativeContext.add_theme`: walk the theme list looking for a
case-insensitive name match; on the first match merge evidence, content
ids and strength (capped at 1) in place; otherwise append the candidate. -/
def addThemeList (themes : List DiscoveredTheme) (t : DiscoveredTheme) :
    List DiscoveredTheme :=
  match themes with
  | [] => [t]
  | e :: rest =>
    if pyLower e.theme = pyLower t.theme then
      mergeTheme e t :: rest
    else
      e :: addThemeList rest t

/-- The `NarrativeContext.add_theme` lifted to the context record. -/
def NarrativeContext.add_theme (ctx : NarrativeContext) (t : DiscoveredTheme) :
    NarrativeContext :=
  { ctx with themes := addThemeList ctx.themes t }

/-- The `NarrativeContext.update`: stamp `updated_at`. -/
def NarrativeContext.update (ctx : NarrativeContext) (now : Nat) :
    NarrativeContext :=
  { ctx with updated_at := now }

/-- The `SectionVersion` from projections.py: one immutable history entry. -/
structure SectionVersion where
  version : Nat
  content : String
  summary : String := ""
  trigger : String := "generation"
  source_content_ids : List String := []
  created_at : Nat := 0
  created_by : Option String := none
  deriving DecidableEq, Repr

/-- The Python slice `l[-n:]` applied conditionally: keep only the last
`n` entries when the list has grown beyond `n`. -/
def pyKeepLast (n : Nat) (l : List α) : List α :=
  if l.length > n then l.drop (l.length - n) else l

/-- The `ProjectedSection` from projections.py.  Generation metadata that the
engine never reads back (`generation_prompt`, `generation_config`) is kept
as opaque strings/omitted; timestamps are `Nat` clock values. -/
structure ProjectedSection where
  id : String
  title : String
  content : String := ""
  summary : String := ""
  source_content_ids : List String := []
  contributor_ids : List String := []
  primary_contributor_id : Option String := none
  state : SectionState := .empty
  generated_at : Option Nat := none
  locked_at : Option Nat := none
  locked_by : Option String := none
  lock_reason : Option String := none
  order : Nat := 0
  version : Nat := 1
  history : List SectionVersion := []
  last_content_snapshot : List String := []
  deriving DecidableEq, Repr

namespace ProjectedSection

/-- The `ProjectedSection.lock`. -/
def lock (s : ProjectedSection) (user_id : String) (reason : String)
    (now : Nat) : ProjectedSection :=
  { s with
    state := .locked
    locked_at := some now
    locked_by := some user_id
    lock_reason := some reason }

/-- The `ProjectedSection.unlock`. -/
def unlock (s : ProjectedSection) : ProjectedSection :=
  { s with
    state := .generated
    locked_at := none
    locked_by := none
    lock_reason := none }

/-- The `ProjectedSection.start_editing`. -/
def start_editing (s : ProjectedSection) : ProjectedSection :=
  { s with state := .draft }

/-- The `SectionVersion` snapshot of the current state that
`_save_to_history` appends. -/
def historySnapshot (s : ProjectedSection) (trigger : String)
    (user_id : Option String) (now : Nat) : SectionVersion :=
  { version := s.version
    content := s.content
    summary := s.summary
    trigger := trigger
    source_content_ids := s.source_content_ids
    created_at := now
    created_by := user_id }

/-- The `ProjectedSection._save_to_history`: no-op when the current content is
empty; otherwise append a snapshot of the current state and keep only the
last 10 entries (`history[-10:]`). -/
def saveToHistory (s : ProjectedSection) (trigger : String)
    (user_id : Option String) (now : Nat) : ProjectedSection :=
  if s.content = "" then s
  else
    { s with
      history := pyKeepLast 10 (s.history ++ [historySnapshot s trigger user_id now]) }

/-- The `ProjectedSection.finish_editing`. -/
def finish_editing (s : ProjectedSection) (new_content : String)
    (lockIt : Bool) (user_id : Option String) (now : Nat) : ProjectedSection :=
  let s := s.saveToHistory "manual_edit" user_id now
  let s := { s with content := new_content, version := s.version + 1 }
  if lockIt then
    { s with
      state := .locked
      locked_at := some now
      locked_by := user_id
      lock_reason := some "manually edited" }
  else
    { s with state := .generated }

/-- The `ProjectedSection.update_content`. -/
def update_content (s : ProjectedSection) (new_content : String)
    (source_content_ids : List String) (trigger : String) (now : Nat) :
    ProjectedSection :=
  let s := if s.content ≠ "" then s.saveToHistory trigger none now else s
  { s with
    content := new_content
    source_content_ids := source_content_ids
    last_content_snapshot := source_content_ids
    generated_at := some now
    state := .generated
    version := s.version + 1 }

/-- The `ProjectedSection.revert_to_version`: the Python method returns a bool
and mutates `self`; the pair carries (return value, updated section). -/
def revert_to_version (s : ProjectedSection) (version : Nat) (now : Nat) :
    Bool × ProjectedSection :=
  match s.history.find? (fun h => h.version = version) with
  | some hist =>
    let s := s.saveToHistory "revert" none now
    (true,
      { s with
        content := hist.content
        summary := hist.summary
        source_content_ids := hist.source_content_ids
        version := s.version + 1 })
  | none => (false, s)

/-- Boolean set-equality of id lists: `set(a) == set(b)` in Python. -/
def idSetEq (a b : List String) : Bool :=
  a.all (fun x => x ∈ b) && b.all (fun x => x ∈ a)

/-- The `ProjectedSection.is_stale`: the snapshot and the current ids differ as
sets. -/
def is_stale (s : ProjectedSection) (current_content_ids : List String) :
    Bool :=
  ! idSetEq current_content_ids s.last_content_snapshot

/-- The `ProjectedSection.is_locked`. -/
def is_locked (s : ProjectedSection) : Bool :=
  s.state = .locked

/-- The `ProjectedSection.can_regenerate`: state is GENERATED or EMPTY. -/
def can_regenerate (s : ProjectedSection) : Bool :=
  s.state = .generated || s.state = .empty

end ProjectedSection

/-- The `MergeStrategy` from projections.py. -/
inductive MergeStrategy where
  | weave
  | separate_voices
  | subject_primary
  | equal_voices
  | annotated
  deriving DecidableEq, Repr

/-- The `ProjectionConfig` from projections.py (date_range is a pair of `Nat`
clock values; optional list filters are `Option (List String)`). -/
structure ProjectionConfig where
  style : ProjectionStyle := .thematic
  length : ProjectionLength := .standard
  default_update_mode : UpdateMode := .evolve
  auto_update_on_content : Bool := false
  contributor_filter : Option (List String) := none
  date_range : Option (Nat × Nat) := none
  tag_filter : Option (List String) := none
  exclude_tags : Option (List String) := none
  suggested_sections : Option (List String) := none
  min_sections : Nat := 1
  max_sections : Nat := 20
  prompt_template : Option String := none
  voice_guidance : Option String := none
  include_empty_sections : Bool := false
  merge_similar : Bool := true
  merge_strategy : MergeStrategy := .weave
  show_attributions : Bool := false
  subject_contributor_id : Option String := none
  deriving DecidableEq, Repr

/-- The `ProjectionVersion` from projections.py: a projection history entry. -/
structure ProjectionVersion where
  version : Nat
  created_at : Nat := 0
  trigger : String := "generation"
  update_mode : Option UpdateMode := none
  section_count : Nat := 0
  word_count : Nat := 0
  content_item_count : Nat := 0
  change_summary : String := ""
  deriving DecidableEq, Repr

/-- Helper for `pyWordCount`: walk the characters counting maximal runs of
non-whitespace; the flag records being inside a word. -/
def wordCountAux : List Char → Bool → Nat
  | [], _ => 0
  | c :: rest, inWord =>
    if c.isWhitespace then wordCountAux rest false
    else (if inWord then 0 else 1) + wordCountAux rest true

/-- The `len(content.split())` in Python: the number of whitespace-delimited
tokens, i.e. of maximal non-whitespace runs.  (Lean's `String.split` does
not reduce in the kernel, so the count walks the character list.) -/
def pyWordCount (s : String) : Nat := wordCountAux s.data false

/-- The `DocumentProjection` from projections.py. -/
structure DocumentProjection where
  id : String
  project_id : String
  name : String
  description : String := ""
  sections : List ProjectedSection := []
  config : ProjectionConfig := {}
  context : NarrativeContext := {}
  version : Nat := 1
  version_history : List ProjectionVersion := []
  created_at : Nat := 0
  updated_at : Nat := 0
  last_regenerated : Option Nat := none
  content_snapshot_ids : List String := []
  contributor_ids : List String := []
  word_count : Nat := 0
  deriving DecidableEq, Repr

namespace DocumentProjection

/-- The `DocumentProjection.get_section`: first section with the given id. -/
def get_section (p : DocumentProjection) (section_id : String) :
    Option ProjectedSection :=
  p.sections.find? (fun s => s.id = section_id)

/-- Apply `f` to the first section whose id is `sid`, in place.  This is the
pure counterpart of Python fetching a section with `get_section` and
mutating the shared object. -/
def setSection (sections : List ProjectedSection) (sid : String)
    (f : ProjectedSection → ProjectedSection) : List ProjectedSection :=
  match sections with
  | [] => []
  | s :: rest =>
    if s.id = sid then f s :: rest else s :: setSection rest sid f

/-- The `DocumentProjection._update_stats`: recompute `word_count` from section
contents and refresh `updated_at`. -/
def updateStats (p : DocumentProjection) (now : Nat) : DocumentProjection :=
  { p with
    word_count :=
      (p.sections.map (fun s =>
        if s.content ≠ "" then pyWordCount s.content else 0)).sum
    updated_at := now }

/-- The `DocumentProjection.add_section`. -/
def add_section (p : DocumentProjection) (s : ProjectedSection) (now : Nat) :
    DocumentProjection :=
  let s := { s with order := p.sections.length }
  ({ p with sections := p.sections ++ [s] }).updateStats now

/-- The `DocumentProjection._reorder_sections`: dense renumbering in place. -/
def reorderDense (p : DocumentProjection) : DocumentProjection :=
  { p with
    sections := p.sections.enum.map (fun pr => { pr.2 with order := pr.1 }) }

/-- The `DocumentProjection.remove_section`: drop the first section with the
given id, renumber, refresh stats; returns whether a section was removed. -/
def remove_section (p : DocumentProjection) (section_id : String)
    (now : Nat) : Bool × DocumentProjection :=
  if p.sections.any (fun s => s.id = section_id) then
    let p := { p with
      sections := p.sections.eraseP (fun s => s.id = section_id) }
    (true, (p.reorderDense).updateStats now)
  else
    (false, p)

/-- The dict comprehension in `reorder_sections`: later sections override
earlier ones on a duplicate id, so look up from the right. -/
def dictLookup (sections : List ProjectedSection) (sid : String) :
    Option ProjectedSection :=
  sections.reverse.find? (fun s => s.id = sid)

/-- The `DocumentProjection.reorder_sections`: keep, for each position `i` of
`section_ids`, the section with that id (if any) with `order := i`, and
replace the section list with exactly those.  Python mutates shared
objects, so for a `section_ids` list with duplicate ids the imperative
version aliases a single object; the theorems below therefore assume
`section_ids` has no duplicates. -/
def reorder_sections (p : DocumentProjection) (section_ids : List String) :
    DocumentProjection :=
  { p with
    sections := section_ids.enum.filterMap (fun pr =>
      match dictLookup p.sections pr.2 with
      | some s => some { s with order := pr.1 }
      | none => none) }

/-- The `DocumentProjection.lock_section`: lock the first matching section;
returns whether it was found. -/
def lock_section (p : DocumentProjection) (section_id user_id reason : String)
    (now : Nat) : Bool × DocumentProjection :=
  match p.get_section section_id with
  | some _ =>
    (true, { p with
      sections := setSection p.sections section_id
        (fun s => s.lock user_id reason now) })
  | none => (false, p)

/-- The `DocumentProjection.unlock_section`. -/
def unlock_section (p : DocumentProjection) (section_id : String) :
    Bool × DocumentProjection :=
  match p.get_section section_id with
  | some _ =>
    (true, { p with
      sections := setSection p.sections section_id (fun s => s.unlock) })
  | none => (false, p)

/-- The `DocumentProjection.get_locked_sections`. -/
def get_locked_sections (p : DocumentProjection) : List ProjectedSection :=
  p.sections.filter (fun s => s.is_locked)

/-- The `DocumentProjection.get_regeneratable_sections`. -/
def get_regeneratable_sections (p : DocumentProjection) :
    List ProjectedSection :=
  p.sections.filter (fun s => s.can_regenerate)

/-- The `DocumentProjection.get_stale_sections`. -/
def get_stale_sections (p : DocumentProjection)
    (current_content_ids : List String) : List ProjectedSection :=
  p.sections.filter (fun s =>
    s.can_regenerate && s.is_stale current_content_ids)

/-- The `ProjectionVersion` snapshot of the current state that
`_save_version` appends. -/
def versionSnapshot (p : DocumentProjection) (trigger : String)
    (update_mode : Option UpdateMode) (change_summary : String) (now : Nat) :
    ProjectionVersion :=
  { version := p.version
    created_at := now
    trigger := trigger
    update_mode := update_mode
    section_count := p.sections.length
    word_count := p.word_count
    content_item_count := p.content_snapshot_ids.length
    change_summary := change_summary }

/-- The `DocumentProjection._save_version`: append a `ProjectionVersion`
snapshot and keep only the last 20 entries (`version_history[-20:]`). -/
def saveVersion (p : DocumentProjection) (trigger : String)
    (update_mode : Option UpdateMode) (change_summary : String) (now : Nat) :
    DocumentProjection :=
  { p with
    version_history :=
      pyKeepLast 20 (p.version_history ++
        [versionSnapshot p trigger update_mode change_summary now]) }

/-- The `DocumentProjection.mark_updated`. -/
def mark_updated (p : DocumentProjection) (content_ids : List String)
    (update_mode : UpdateMode) (change_summary : String) (now : Nat) :
    DocumentProjection :=
  let p := p.saveVersion "update" (some update_mode) change_summary now
  let p := { p with
    version := p.version + 1
    updated_at := now
    last_regenerated := some now
    content_snapshot_ids := content_ids }
  p.updateStats now

end DocumentProjection

/-- The `ContentPool` from projections.py.  The Python `set` fields are
modelled as duplicate-free lists. -/
structure ContentPool where
  project_id : String
  content_ids : List String := []
  contributor_ids : List String := []
  tags : List String := []
  total_items : Nat := 0
  last_updated : Nat := 0
  deriving DecidableEq, Repr

namespace ContentPool

/-- The `ContentPool.add_content`: idempotent add. -/
def add_content (pool : ContentPool) (content_id contributor_id : String)
    (tags : List String) (now : Nat) : ContentPool :=
  if content_id ∈ pool.content_ids then pool
  else
    { pool with
      content_ids := pool.content_ids ++ [content_id]
      contributor_ids :=
        if contributor_id ∈ pool.contributor_ids then pool.contributor_ids
        else pool.contributor_ids ++ [contributor_id]
      tags := pool.tags ++ tags.filter (fun t => t ∉ pool.tags)
      total_items := pool.content_ids.length + 1
      last_updated := now }

/-- The `ContentPool.get_new_content_ids`: pool ids not in the snapshot, in
pool order. -/
def get_new_content_ids (pool : ContentPool) (since_ids : List String) :
    List String :=
  pool.content_ids.filter (fun cid => cid ∉ since_ids)

/-- The `ContentPool.get_filtered_ids`: the source returns all ids ("Simplified
- real implementation would filter properly"). -/
def get_filtered_ids (pool : ContentPool)
    (contributor_filter tag_filter : Option (List String)) : List String :=
  pool.content_ids

end ContentPool

/-- The type-specific `content` dict of a `ContentItem`, as read by
`ProjectionService._extract_texts`: either an answer (with an optional
question text, empty string when absent), a plain text, or anything else
(skipped by text extraction). -/
inductive ItemContent where
  | answer (question_text : String) (answer_text : String)
  | plain (text : String)
  | other
  deriving DecidableEq, Repr

/-- The `ContentItem` from core/models.py, restricted to the fields the
projection service reads. -/
structure ContentItem where
  id : String
  project_id : String
  contributor_id : String
  content : ItemContent
  tags : List String := []
  deriving DecidableEq, Repr

/-- The result of `MemoirAI.extract_themes` as consumed by the service:
themes as (name, description) pairs (a bare string theme is a pair with an
empty description), key facts as an association list, suggested topics and
an emotional tone. -/
structure ExtractResult where
  themes : List (String × String) := []
  key_facts : List (String × String) := []
  suggested_topics : List String := []
  emotional_tone : String := "neutral"
  deriving DecidableEq, Repr

/-- The content-synthesis capability (`MemoirAI`), abstracted as total
functions of the arguments the service passes.  A service whose `_ai` is
`None` (or whose AI call raised, triggering the deterministic fallback) is
modelled by the `none` case of `Option Synth` at the call sites that have
a stub fallback. -/
structure Synth where
  gen_section : (title content style ctx lengthArg : String) → String
  regen_section : (title existing_content new_content style : String) → String
  themes_of : (text : String) → (existing_theme_names : List String) →
    ExtractResult

/-- The `ProjectionService._extract_texts` applied to one item's content dict:
answers render as "Q: ...\nA: ..." (or just the answer when the question
is empty), plain text passes through, anything else is skipped. -/
def extractText : ItemContent → Option String
  | .answer q a =>
    some (if q ≠ "" then "Q: " ++ q ++ "\nA: " ++ a else a)
  | .plain t => some t
  | .other => none

/-- The `ProjectionService._extract_texts`. -/
def extractTexts (content_items : List ContentItem) : List String :=
  content_items.filterMap (fun it => extractText it.content)

/-- The `[self._content_items[cid] for cid in ids if cid in
self._content_items]` pattern: resolve ids against the content-item store,
dropping ids with no loaded item.  The store is the `_content_items` dict,
modelled as a list looked up by id. -/
def resolveItems (store : List ContentItem) (ids : List String) :
    List ContentItem :=
  ids.filterMap (fun cid => store.find? (fun it => it.id = cid))

/-- The `length_desc` mapping of `_stub_generate_section`. -/
def lengthDesc : ProjectionLength → String
  | .summary => "brief"
  | .standard => "standard"
  | .comprehensive => "comprehensive"

/-- The `length_map` used on the AI path of `_generate_section_content`. -/
def aiLengthMap : ProjectionLength → String
  | .summary => "brief"
  | .standard => "standard"
  | .comprehensive => "detailed"

/-- The `config.voice_guidance or "warm and engaging"` (empty string is falsy
in Python). -/
def styleGuidance (config : ProjectionConfig) : String :=
  match config.voice_guidance with
  | some s => if s = "" then "warm and engaging" else s
  | none => "warm and engaging"

/-- The `context_str` built by `_generate_section_content`: the context
summary, plus the names of the first three themes when any exist. -/
def contextStr (ctx : NarrativeContext) : String :=
  if ctx.themes ≠ [] then
    ctx.summary ++ "\n\nKey themes: " ++
      String.intercalate ", " ((ctx.themes.take 3).map (fun t => t.theme))
  else ctx.summary

/-- The `ProjectionService._stub_generate_section`: the deterministic fallback
used when no AI is configured. -/
def stubGenerateSection (section_topic : String) (texts : List String)
    (config : ProjectionConfig) : String :=
  let preview :=
    match texts with
    | [] => ""
    | t :: _ => if t.length > 200 then t.take 200 ++ "..." else t
  "*[AI-generated " ++ lengthDesc config.length ++ " section about \"" ++
    section_topic ++ "\"]*\n\nBased on " ++ toString texts.length ++
    " content items.\n\n" ++ preview ++
    "\n\n---\n\n*[Configure GOOGLE_API_KEY in .env to enable real AI generation with Gemini.]*\n"

/-- The `ProjectionService._generate_section_content`. -/
def generateSectionContent (ai : Option Synth) (section_topic : String)
    (content_items : List ContentItem) (config : ProjectionConfig)
    (ctx : NarrativeContext) : String :=
  if content_items = [] then ""
  else
    let texts := extractTexts content_items
    if texts = [] then ""
    else
      let raw_content := String.intercalate "\n\n" texts
      match ai with
      | some s =>
        s.gen_section section_topic raw_content (styleGuidance config)
          (contextStr ctx) (aiLengthMap config.length)
      | none => stubGenerateSection section_topic texts config

/-- The `ProjectionService._evolve_section_content`: the AI "integrate" path
receives the existing content and the joined texts of the given
`content_items`; the stub path appends. -/
def evolveSectionContent (ai : Option Synth)
    (section_topic existing_content : String)
    (content_items : List ContentItem) (config : ProjectionConfig)
    (ctx : NarrativeContext) : String :=
  if content_items = [] then existing_content
  else
    let texts := extractTexts content_items
    let new_content := String.intercalate "\n\n" texts
    match ai with
    | some s =>
      if existing_content ≠ "" then
        s.regen_section section_topic existing_content new_content
          (styleGuidance config)
      else stubGenerateSection section_topic texts config
    | none =>
      if existing_content ≠ "" then
        existing_content ++ "\n\n---\n\n*[New content integrated:]*\n\n" ++
          stubGenerateSection section_topic texts config
      else stubGenerateSection section_topic texts config

/-- The delta of `content_items` against a section's last snapshot, as
computed by the APPEND branch of `_update_section` (and as the spec claims
EVOLVE passes to the integrate call). -/
def deltaItems (sec : ProjectedSection) (content_items : List ContentItem) :
    List ContentItem :=
  content_items.filter (fun c => c.id ∉ sec.last_content_snapshot)

/-- The `ProjectionService._update_section` with its `content_items` argument
already resolved. -/
def updateSection (ai : Option Synth) (proj : DocumentProjection)
    (sec : ProjectedSection) (mode : UpdateMode)
    (content_items : List ContentItem) (now : Nat) : ProjectedSection :=
  match mode with
  | .regenerate =>
    let new_content :=
      generateSectionContent ai sec.title content_items proj.config
        proj.context
    sec.update_content new_content (content_items.map (fun c => c.id))
      "regeneration" now
  | .evolve =>
    let new_content :=
      evolveSectionContent ai sec.title sec.content content_items
        proj.config proj.context
    sec.update_content new_content (content_items.map (fun c => c.id))
      "evolution" now
  | .append =>
    let new_items := deltaItems sec content_items
    if new_items ≠ [] then
      let appended :=
        generateSectionContent ai ("additional content for " ++ sec.title)
          new_items proj.config proj.context
      sec.update_content (sec.content ++ "\n\n" ++ appended)
        (content_items.map (fun c => c.id)) "append" now
    else sec
  | .refresh =>
    if sec.is_stale (content_items.map (fun c => c.id)) then
      let new_content :=
        generateSectionContent ai sec.title content_items proj.config
          proj.context
      sec.update_content new_content (content_items.map (fun c => c.id))
        "refresh" now
    else sec

/-- The `dict.update` on an association list: existing keys get the new value
in place, new keys are appended. -/
def assocUpdate (d upd : List (String × String)) : List (String × String) :=
  upd.foldl (fun acc kv =>
    if acc.any (fun p => p.1 = kv.1) then
      acc.map (fun p => if p.1 = kv.1 then (p.1, kv.2) else p)
    else acc ++ [kv]) d

/-- The `ProjectionService._update_narrative_context`.  The `none` AI case
covers both an unconfigured AI and a raised `extract_themes` call (the
`except` branch), where only the timestamp is refreshed. -/
def updateNarrativeContext (ai : Option Synth) (ctx : NarrativeContext)
    (new_items : List ContentItem) (now : Nat) : NarrativeContext :=
  if new_items = [] then ctx
  else
    let texts := extractTexts new_items
    let all_text := String.intercalate "\n\n" texts
    match ai with
    | some s =>
      let result := s.themes_of all_text (ctx.themes.map (fun t => t.theme))
      let ctx := result.themes.foldl (fun c td =>
        c.add_theme {
          theme := td.1
          description := td.2
          source_content_ids := new_items.map (fun it => it.id) }) ctx
      let ctx := { ctx with
        key_facts := assocUpdate ctx.key_facts result.key_facts }
      let ctx := result.suggested_topics.foldl (fun c t =>
        if t ∈ c.suggested_topics then c
        else { c with suggested_topics := c.suggested_topics ++ [t] }) ctx
      ctx.update now
    | none => ctx.update now

/-- Candidate selection of `ProjectionService.update_projection`:
REGENERATE takes `get_regeneratable_sections`, every other mode takes
`get_stale_sections`. -/
def candidatePred (mode : UpdateMode) (content_ids : List String)
    (s : ProjectedSection) : Bool :=
  match mode with
  | .regenerate => s.can_regenerate
  | _ => s.can_regenerate && s.is_stale content_ids

/-- The narrative-context step at the head of
`ProjectionService.update_projection`: when the pool holds content newly
added since the projection's last snapshot, refresh the context from just
those new items. -/
def contextStep (ai : Option Synth) (store : List ContentItem)
    (pool : ContentPool) (proj : DocumentProjection) (now : Nat) :
    DocumentProjection :=
  let new_content_ids := pool.get_new_content_ids proj.content_snapshot_ids
  if new_content_ids ≠ [] then
    let ctx2 :=
      updateNarrativeContext ai proj.context
        (resolveItems store new_content_ids) now
    { proj with context := ctx2 }
  else proj

/-- The `ProjectionService.update_projection`: filter content ids, refresh the
narrative context from the new content only, update each candidate
section, then `mark_updated`. -/
def update_projection (ai : Option Synth) (store : List ContentItem)
    (pool : ContentPool) (proj : DocumentProjection) (mode : UpdateMode)
    (now : Nat) : DocumentProjection :=
  let content_ids :=
    pool.get_filtered_ids proj.config.contributor_filter
      proj.config.tag_filter
  let content_items := resolveItems store content_ids
  let new_content_ids := pool.get_new_content_ids proj.content_snapshot_ids
  let proj := contextStep ai store pool proj now
  let candidateCount :=
    (proj.sections.filter (candidatePred mode content_ids)).length
  let proj := { proj with sections := proj.sections.map (fun s =>
    if candidatePred mode content_ids s then
      updateSection ai proj s mode content_items now
    else s) }
  let change_summary :=
    mode.value ++ ": updated " ++ toString candidateCount ++ " sections" ++
      (if new_content_ids ≠ [] then
        " with " ++ toString new_content_ids.length ++ " new content items"
      else "")
  proj.mark_updated content_ids mode change_summary now

/-- The `ProjectionService.edit_section` (projection already looked up): edit
the section, then refresh the projection stats. -/
def editSection (proj : DocumentProjection) (section_id new_content : String)
    (lockIt : Bool) (user_id : Option String) (now : Nat) :
    Bool × DocumentProjection :=
  match proj.get_section section_id with
  | none => (false, proj)
  | some _ =>
    let secs :=
      DocumentProjection.setSection proj.sections section_id
        (fun s => s.finish_editing new_content lockIt user_id now)
    let proj := { proj with sections := secs }
    (true, proj.updateStats now)

/-- The `ProjectionService.revert_section` (projection already looked up):
revert the section; the projection stats are NOT refreshed. -/
def revertSection (proj : DocumentProjection) (section_id : String)
    (version : Nat) (now : Nat) : Bool × DocumentProjection :=
  match proj.get_section section_id with
  | none => (false, proj)
  | some s =>
    let secs :=
      DocumentProjection.setSection proj.sections section_id
        (fun t => (t.revert_to_version version now).2)
    ((s.revert_to_version version now).1, { proj with sections := secs })

/-- The input dictionary of `ProjectionService._parse_config` (absent keys
are `none`). -/
structure ConfigDict where
  style : Option String := none
  length : Option String := none
  default_update_mode : Option String := none
  auto_update_on_content : Option Bool := none
  contributor_filter : Option (List String) := none
  tag_filter : Option (List String) := none
  suggested_sections : Option (List String) := none
  voice_guidance : Option String := none
  deriving DecidableEq, Repr

/-- The `ProjectionService._parse_config`: unknown style/length/mode strings
fall back to the defaults (THEMATIC / STANDARD / EVOLVE); the function
never raises. -/
def parseConfig (d : ConfigDict) : ProjectionConfig :=
  let styleStr := d.style.getD "thematic"
  let lengthStr := d.length.getD "standard"
  let modeStr := d.default_update_mode.getD "evolve"
  { style := (ProjectionStyle.ofValue styleStr).getD .thematic
    length := (ProjectionLength.ofValue lengthStr).getD .standard
    default_update_mode := (UpdateMode.ofValue modeStr).getD .evolve
    auto_update_on_content := d.auto_update_on_content.getD false
    contributor_filter := d.contributor_filter
    tag_filter := d.tag_filter
    suggested_sections := d.suggested_sections
    voice_guidance := d.voice_guidance }

/-- The `ProjectionService._handle_update` after the projection lookup: parse
the mode string (`UpdateMode(mode_str)` raises `ValueError` on an unknown
value, modelled as `Except.error`, before anything is touched), then
either update the listed regeneratable sections in place (no
`mark_updated`, no stats refresh) or run a full `update_projection`
pass. -/
def handleUpdateProjection (ai : Option Synth) (store : List ContentItem)
    (pool : ContentPool) (proj : DocumentProjection) (mode_str : String)
    (section_ids : Option (List String)) (now : Nat) :
    Except String DocumentProjection :=
  match UpdateMode.ofValue mode_str with
  | none => .error ("ValueError: not a valid UpdateMode: " ++ mode_str)
  | some mode =>
    match section_ids with
    | some ids =>
      .ok (ids.foldl (fun p sid =>
        match p.get_section sid with
        | some s =>
          if s.can_regenerate then
            { p with sections :=
              DocumentProjection.setSection p.sections sid (fun t =>
                updateSection ai p t mode
                  (resolveItems store pool.content_ids) now) }
          else p
        | none => p) proj)
    | none => .ok (update_projection ai store pool proj mode now)

/-- One content-mutating call on a section: `update_content`,
`finish_editing`, or `revert_to_version`. -/
inductive SectionOp where
  | updateContent (new_content : String) (ids : List String)
      (trigger : String) (now : Nat)
  | finishEditing (new_content : String) (lockIt : Bool)
      (user_id : Option String) (now : Nat)
  | revertTo (version : Nat) (now : Nat)

/-- Apply one mutating call to a section. -/
def applySectionOp (s : ProjectedSection) : SectionOp → ProjectedSection
  | .updateContent c ids trig now => s.update_content c ids trig now
  | .finishEditing c l u now => s.finish_editing c l u now
  | .revertTo v now => (s.revert_to_version v now).2

/-- Apply a sequence of mutating calls to a section. -/
def applySectionOps (s : ProjectedSection) (ops : List SectionOp) :
    ProjectedSection :=
  ops.foldl applySectionOp s

/-- The arguments of one `mark_updated` call on a projection. -/
structure MarkCall where
  content_ids : List String
  mode : UpdateMode
  change_summary : String
  now : Nat

/-- Apply a sequence of `mark_updated` calls to a projection. -/
def applyMarkCalls (p : DocumentProjection) (calls : List MarkCall) :
    DocumentProjection :=
  calls.foldl (fun q c =>
    q.mark_updated c.content_ids c.mode c.change_summary c.now) p

/-- A fresh section used to exercise C3. -/
def c3sec : ProjectedSection := { id := "s1", title := "T" }

/-- A fresh projection used to exercise C3. -/
def c3proj : DocumentProjection := { id := "d1", project_id := "p", name := "N" }

/-- The section mutations applied in the C3 witness. -/
def c3ops : List SectionOp :=
  [SectionOp.updateContent "hello" ["c1"] "generation" 1,
   SectionOp.finishEditing "bye" false none 2]

/-- The `mark_updated` calls applied in the C3 witness. -/
def c3calls : List MarkCall :=
  [{ content_ids := ["c1"], mode := .evolve, change_summary := "", now := 3 }]

/-- A section with one past version in its history, used to exercise the
revert branch of C4. -/
def c4sec : ProjectedSection :=
  { id := "s"
    title := "T"
    content := "cur"
    version := 2
    history := [{ version := 1, content := "old" }] }

/-- A section whose current content is empty while its history is not:
the state reachable e.g. via `update_content("", ids)`. -/
def c5sec : ProjectedSection :=
  { id := "s1"
    title := "T"
    content := ""
    summary := ""
    version := 2
    history := [{ version := 1, content := "old words", summary := "os",
                  source_content_ids := ["c1"] }] }

/-- A section with non-empty content and a past version, exercising the
reversible branch of the amended C5. -/
def c5wsec : ProjectedSection :=
  { id := "sw"
    title := "T"
    content := "cur text"
    version := 3
    history := [{ version := 2, content := "prev" }] }

/-- Themes used in the C6 witness. -/
def c6t1 : DiscoveredTheme :=
  { theme := "Family", evidence := ["grew up close"], strength := 1/2,
    source_content_ids := ["c1"] }

/-- Second candidate (same name up to case) used in the C6 witness. -/
def c6t2 : DiscoveredTheme :=
  { theme := "family", evidence := ["sunday dinners"], strength := 1,
    source_content_ids := ["c2"] }

/-- A locked section used to exercise C1. -/
def c1sec : ProjectedSection :=
  { id := "s1"
    title := "T"
    content := "keep me"
    summary := "sum"
    state := .locked
    version := 4 }

/-- Projection holding the locked section for the C1 witness. -/
def c1proj : DocumentProjection :=
  { id := "d", project_id := "p", name := "N", sections := [c1sec] }

/-- Pool used by the C1 witness. -/
def c1pool : ContentPool := { project_id := "p", content_ids := ["c1"] }

/-- Content item already present in the section's last snapshot, used by
the C2 counterexample. -/
def c2item1 : ContentItem :=
  { id := "c1", project_id := "p", contributor_id := "u",
    content := .plain "T1" }

/-- Content item new since the section's last snapshot, used by the C2
counterexample. -/
def c2item2 : ContentItem :=
  { id := "c2", project_id := "p", contributor_id := "u",
    content := .plain "T2" }

/-- Section for the C2 counterexample: its last snapshot already covers
"c1", so the delta of `[c2item1, c2item2]` is just `[c2item2]`. -/
def c2sec : ProjectedSection :=
  { id := "s1"
    title := "T"
    content := "OLD"
    state := .generated
    last_content_snapshot := ["c1"] }

/-- Projection for the C2 counterexample. -/
def c2proj : DocumentProjection :=
  { id := "d", project_id := "p", name := "N", sections := [c2sec] }

/-- A probe synthesis capability whose integrate call returns exactly the
new-content text it was handed, exposing what the engine passed to it. -/
def c2probe : Synth :=
  { gen_section := fun _ _ _ _ _ => ""
    regen_section := fun _ _ new_content _ => new_content
    themes_of := fun _ _ => {} }

/-- A stale generated section used in the C7 counterexample. -/
def c7sec : ProjectedSection :=
  { id := "s1"
    title := "T"
    content := "existing words"
    state := .generated
    last_content_snapshot := [] }

/-- Projection for the C7 counterexample. -/
def c7proj : DocumentProjection :=
  { id := "d", project_id := "p", name := "N", sections := [c7sec] }

/-- Pool for the C7 counterexample: it references content id "c1" but the
content-item store holds no item for it. -/
def c7pool : ContentPool := { project_id := "p", content_ids := ["c1"] }

/-- A stale generated section for the C7 witness. -/
def c7wsec : ProjectedSection :=
  { id := "sw"
    title := "T"
    content := "old text"
    state := .generated
    last_content_snapshot := [] }

/-- Projection for the C7 witness. -/
def c7wproj : DocumentProjection :=
  { id := "dw", project_id := "p", name := "N", sections := [c7wsec] }

/-- Pool for the C7 witness: its single content id has a loaded item. -/
def c7wpool : ContentPool := { project_id := "p", content_ids := ["c1"] }

/-- The loaded content item matching the C7 witness pool. -/
def c7witem : ContentItem :=
  { id := "c1", project_id := "p", contributor_id := "u",
    content := .plain "hello there" }

/-- Section for the C8 counterexample: three words of content, one word in
its previous version. -/
def c8sec : ProjectedSection :=
  { id := "s1"
    title := "T"
    content := "one two three"
    state := .generated
    version := 2
    history := [{ version := 1, content := "one" }] }

/-- Projection for the C8 counterexample, with stats consistent before the
revert (`word_count = 3`, `updated_at = 0`). -/
def c8proj : DocumentProjection :=
  { id := "d", project_id := "p", name := "N", sections := [c8sec],
    word_count := 3 }

/-- Projection with one generated section, for the C8 witness. -/
def c8wproj : DocumentProjection :=
  { id := "d"
    project_id := "p"
    name := "N"
    sections := [{ id := "s1", title := "T", content := "abc",
                   state := .generated }] }

/-- Pool for the C9 witness. -/
def c9pool : ContentPool := { project_id := "p" }

/-- Projection for the C9 witness. -/
def c9proj : DocumentProjection := { id := "d", project_id := "p", name := "N" }

/-- The single real section of the C10 counterexample projection. -/
def c10sec : ProjectedSection := { id := "a", title := "A" }

/-- Projection for the C10 counterexample. -/
def c10proj : DocumentProjection :=
  { id := "d", project_id := "p", name := "N", sections := [c10sec] }

/-! ## Helper lemmas -/

theorem pyKeepLast_suffix (n : Nat) (l : List α) :
    List.IsSuffix (pyKeepLast n l) l := by
  unfold pyKeepLast
  split
  · exact List.drop_suffix _ _
  · exact List.suffix_refl _

theorem pyKeepLast_length (n : Nat) (l : List α) (e : α)
    (h : l.length ≤ n) : (pyKeepLast n (l ++ [e])).length ≤ n := by
  unfold pyKeepLast
  split
  · simp only [List.length_drop, List.length_append, List.length_cons,
      List.length_nil]
    omega
  · simp only [List.length_append, List.length_cons, List.length_nil] at *
    omega

theorem pyKeepLast_append_last (n : Nat) (hn : 0 < n) (l : List α) (e : α) :
    pyKeepLast n (l ++ [e]) =
      (if l.length + 1 > n then l.drop (l.length + 1 - n) else l) ++ [e] := by
  unfold pyKeepLast
  simp only [List.length_append, List.length_singleton]
  by_cases h : l.length + 1 > n
  · rw [if_pos h, List.drop_append_of_le_length (by omega), if_pos h]
  · rw [if_neg h, if_neg h]

theorem saveToHistory_fields (s : ProjectedSection) (t : String)
    (u : Option String) (n : Nat) :
    (s.saveToHistory t u n).version = s.version ∧
    (s.saveToHistory t u n).content = s.content ∧
    (s.saveToHistory t u n).summary = s.summary ∧
    (s.saveToHistory t u n).source_content_ids = s.source_content_ids ∧
    (s.saveToHistory t u n).state = s.state ∧
    (s.saveToHistory t u n).last_content_snapshot =
      s.last_content_snapshot := by
  unfold ProjectedSection.saveToHistory
  split <;> simp

theorem saveToHistory_history (s : ProjectedSection) (t : String)
    (u : Option String) (n : Nat) :
    (s.saveToHistory t u n).history =
      if s.content = "" then s.history
      else pyKeepLast 10 (s.history ++ [s.historySnapshot t u n]) := by
  unfold ProjectedSection.saveToHistory
  split <;> simp_all

theorem saveToHistory_length (s : ProjectedSection) (t : String)
    (u : Option String) (n : Nat) (h : s.history.length ≤ 10) :
    (s.saveToHistory t u n).history.length ≤ 10 := by
  rw [saveToHistory_history]
  split
  · exact h
  · exact pyKeepLast_length 10 _ _ h

theorem update_content_history (s : ProjectedSection) (c : String)
    (ids : List String) (trig : String) (now : Nat) :
    (s.update_content c ids trig now).history =
      (if s.content ≠ "" then s.saveToHistory trig none now else s).history := by
  unfold ProjectedSection.update_content
  split <;> simp

theorem finish_editing_history (s : ProjectedSection) (c : String)
    (l : Bool) (u : Option String) (now : Nat) :
    (s.finish_editing c l u now).history =
      (s.saveToHistory "manual_edit" u now).history := by
  unfold ProjectedSection.finish_editing
  split <;> simp

theorem revert_history (s : ProjectedSection) (v now : Nat) :
    (s.revert_to_version v now).2.history =
      match s.history.find? (fun h => h.version = v) with
      | some _ => (s.saveToHistory "revert" none now).history
      | none => s.history := by
  unfold ProjectedSection.revert_to_version
  split <;> simp_all

theorem applySectionOp_history_le (s : ProjectedSection) (op : SectionOp)
    (h : s.history.length ≤ 10) :
    (applySectionOp s op).history.length ≤ 10 := by
  cases op with
  | updateContent c ids trig now =>
    show (s.update_content c ids trig now).history.length ≤ 10
    rw [update_content_history]
    split
    · exact saveToHistory_length _ _ _ _ h
    · exact h
  | finishEditing c l u now =>
    show (s.finish_editing c l u now).history.length ≤ 10
    rw [finish_editing_history]
    exact saveToHistory_length _ _ _ _ h
  | revertTo v now =>
    show (s.revert_to_version v now).2.history.length ≤ 10
    rw [revert_history]
    split
    · exact saveToHistory_length _ _ _ _ h
    · exact h

theorem saveVersion_version_history (p : DocumentProjection) (t : String)
    (m : Option UpdateMode) (cs : String) (n : Nat) :
    (p.saveVersion t m cs n).version_history =
      pyKeepLast 20 (p.version_history ++ [p.versionSnapshot t m cs n]) := by
  rfl

theorem mark_updated_version_history (p : DocumentProjection)
    (ids : List String) (m : UpdateMode) (cs : String) (n : Nat) :
    (p.mark_updated ids m cs n).version_history =
      (p.saveVersion "update" (some m) cs n).version_history := by
  rfl

theorem mark_updated_sections (p : DocumentProjection) (ids : List String)
    (m : UpdateMode) (cs : String) (n : Nat) :
    (p.mark_updated ids m cs n).sections = p.sections := by
  rfl

theorem mark_updated_version (p : DocumentProjection) (ids : List String)
    (m : UpdateMode) (cs : String) (n : Nat) :
    (p.mark_updated ids m cs n).version = p.version + 1 := by
  rfl

theorem candidatePred_locked (mode : UpdateMode) (ids : List String)
    (s : ProjectedSection) (hlock : s.state = .locked) :
    candidatePred mode ids s = false := by
  have hcr : s.can_regenerate = false := by
    rw [ProjectedSection.can_regenerate, hlock]; rfl
  cases mode <;> simp [candidatePred, hcr]

theorem mark_updated_version_history_le (p : DocumentProjection)
    (ids : List String) (m : UpdateMode) (cs : String) (n : Nat)
    (h : p.version_history.length ≤ 20) :
    (p.mark_updated ids m cs n).version_history.length ≤ 20 := by
  rw [mark_updated_version_history, saveVersion_version_history]
  exact pyKeepLast_length 20 _ _ h

theorem addThemeList_no_match (themes : List DiscoveredTheme)
    (t : DiscoveredTheme)
    (h : ∀ e ∈ themes, pyLower e.theme ≠ pyLower t.theme) :
    addThemeList themes t = themes ++ [t] := by
  induction themes with
  | nil => rfl
  | cons e rest ih =>
    rw [addThemeList, if_neg (h e (by simp))]
    simp [ih (fun x hx => h x (by simp [hx]))]

theorem addThemeList_first_match (pre : List DiscoveredTheme)
    (e : DiscoveredTheme) (post : List DiscoveredTheme)
    (t : DiscoveredTheme)
    (hpre : ∀ x ∈ pre, pyLower x.theme ≠ pyLower t.theme)
    (he : pyLower e.theme = pyLower t.theme) :
    addThemeList (pre ++ e :: post) t = pre ++ mergeTheme e t :: post := by
  induction pre with
  | nil => simp [addThemeList, if_pos he]
  | cons x xs ih =>
    rw [List.cons_append, addThemeList, if_neg (hpre x (by simp))]
    simp [ih (fun y hy => hpre y (by simp [hy]))]

theorem contextStep_sections (ai : Option Synth) (store : List ContentItem)
    (pool : ContentPool) (proj : DocumentProjection) (now : Nat) :
    (contextStep ai store pool proj now).sections = proj.sections := by
  unfold contextStep
  dsimp only
  split <;> rfl

theorem update_projection_sections (ai : Option Synth)
    (store : List ContentItem) (pool : ContentPool)
    (proj : DocumentProjection) (mode : UpdateMode) (now : Nat) :
    (update_projection ai store pool proj mode now).sections =
      proj.sections.map (fun s =>
        if candidatePred mode pool.content_ids s then
          updateSection ai (contextStep ai store pool proj now) s mode
            (resolveItems store pool.content_ids) now
        else s) := by
  unfold update_projection
  rw [mark_updated_sections]
  rw [contextStep_sections]
  rfl

theorem update_content_fields (s : ProjectedSection) (c : String)
    (ids : List String) (trig : String) (now : Nat) :
    (s.update_content c ids trig now).content = c ∧
    (s.update_content c ids trig now).source_content_ids = ids ∧
    (s.update_content c ids trig now).last_content_snapshot = ids ∧
    (s.update_content c ids trig now).state = .generated :=
  ⟨rfl, rfl, rfl, rfl⟩

theorem idSetEq_eq_true (a b : List String) :
    ProjectedSection.idSetEq a b = true ↔
      ((∀ x ∈ a, x ∈ b) ∧ (∀ x ∈ b, x ∈ a)) := by
  simp [ProjectedSection.idSetEq, List.all_eq_true]

theorem idSetEq_refl (l : List String) :
    ProjectedSection.idSetEq l l = true := by
  simp [ProjectedSection.idSetEq, List.all_eq_true]

theorem resolveItems_ids (store : List ContentItem) (ids : List String)
    (h : ∀ cid ∈ ids, ∃ it ∈ store, it.id = cid) :
    (resolveItems store ids).map (fun c => c.id) = ids := by
  induction ids with
  | nil => rfl
  | cons x xs ih =>
    obtain ⟨it, hit, hid⟩ := h x (by simp)
    have hsome : (store.find? (fun i => i.id = x)).isSome := by
      rw [List.find?_isSome]
      exact ⟨it, hit, by simp [hid]⟩
    obtain ⟨y, hy⟩ := Option.isSome_iff_exists.mp hsome
    have hyx : y.id = x := by
      have := List.find?_some hy
      simpa using this
    unfold resolveItems
    rw [List.filterMap_cons]
    rw [hy]
    simp only [List.map_cons, hyx]
    have ihx := ih (fun cid hc => h cid (by simp [hc]))
    unfold resolveItems at ihx
    rw [ihx]

theorem pyWordCount_empty : pyWordCount "" = 0 := rfl

theorem updateStats_spec (p : DocumentProjection) (now : Nat) :
    (p.updateStats now).sections = p.sections ∧
    (p.updateStats now).updated_at = now ∧
    (p.updateStats now).word_count =
      (p.sections.map (fun s => pyWordCount s.content)).sum := by
  refine ⟨rfl, rfl, ?_⟩
  unfold DocumentProjection.updateStats
  have hpt : ∀ s : ProjectedSection,
      (if s.content ≠ "" then pyWordCount s.content else 0) =
        pyWordCount s.content := by
    intro s
    split
    · rfl
    · rename_i h
      rw [not_ne_iff.mp h]
      rfl
  simp only [hpt]

theorem mark_updated_stats (p : DocumentProjection) (ids : List String)
    (m : UpdateMode) (cs : String) (now : Nat) :
    (p.mark_updated ids m cs now).word_count =
      ((p.mark_updated ids m cs now).sections.map
        (fun s => pyWordCount s.content)).sum ∧
    (p.mark_updated ids m cs now).updated_at = now := by
  constructor
  · rw [mark_updated_sections]
    exact (updateStats_spec _ now).2.2
  · exact (updateStats_spec _ now).2.1

/-! ## Claims -/

/-- C3: after any number of content-mutating calls a section's `history`
never holds more than 10 entries and after any number of `mark_updated`
calls a projection's `version_history` never holds more than 20 entries;
each save keeps a suffix of the appended list (so only the oldest entries
are evicted) and the newest snapshot is always the last entry retained. -/
theorem claim_C3_history_bound :
    (∀ (s : ProjectedSection) (ops : List SectionOp),
      s.history.length ≤ 10 →
      (applySectionOps s ops).history.length ≤ 10) ∧
    (∀ (p : DocumentProjection) (calls : List MarkCall),
      p.version_history.length ≤ 20 →
      (applyMarkCalls p calls).version_history.length ≤ 20) ∧
    (∀ (s : ProjectedSection) (t : String) (u : Option String) (n : Nat),
      s.content ≠ "" →
      List.IsSuffix (s.saveToHistory t u n).history
        (s.history ++ [s.historySnapshot t u n]) ∧
      (s.saveToHistory t u n).history.getLast? =
        some (s.historySnapshot t u n)) ∧
    (∀ (p : DocumentProjection) (t : String) (m : Option UpdateMode)
        (cs : String) (n : Nat),
      List.IsSuffix (p.saveVersion t m cs n).version_history
        (p.version_history ++ [p.versionSnapshot t m cs n]) ∧
      (p.saveVersion t m cs n).version_history.getLast? =
        some (p.versionSnapshot t m cs n)) := by
  refine ⟨?_, ?_, ?_, ?_⟩
  · intro s ops
    induction ops generalizing s with
    | nil => exact fun h => h
    | cons op ops ih =>
      intro h
      exact ih _ (applySectionOp_history_le s op h)
  · intro p calls
    induction calls generalizing p with
    | nil => exact fun h => h
    | cons c calls ih =>
      intro h
      exact ih _ (mark_updated_version_history_le p _ _ _ _ h)
  · intro s t u n hne
    rw [saveToHistory_history, if_neg hne]
    constructor
    · exact pyKeepLast_suffix _ _
    · rw [pyKeepLast_append_last 10 (by omega)]
      exact List.getLast?_concat _
  · intro p t m cs n
    rw [saveVersion_version_history]
    constructor
    · exact pyKeepLast_suffix _ _
    · rw [pyKeepLast_append_last 20 (by omega)]
      exact List.getLast?_concat _

/-- Concrete instance of C3 with its hypotheses discharged: mutations on a
fresh section and projection keep the histories within bound. -/
theorem claim_C3_witness :
    (c3sec.history.length ≤ 10 ∧
      (applySectionOps c3sec c3ops).history.length ≤ 10) ∧
    (c3proj.version_history.length ≤ 20 ∧
      (applyMarkCalls c3proj c3calls).version_history.length ≤ 20) :=
  ⟨⟨by decide, claim_C3_history_bound.1 c3sec c3ops (by decide)⟩,
   ⟨by decide, claim_C3_history_bound.2.1 c3proj c3calls (by decide)⟩⟩

/-- C4: `update_content` and `finish_editing` always increase a section's
version by exactly 1, a successful `revert_to_version` does too, and
`mark_updated` increases a projection's version by exactly 1. -/
theorem claim_C4_version_monotonic :
    (∀ (s : ProjectedSection) (c : String) (ids : List String)
        (trig : String) (now : Nat),
      (s.update_content c ids trig now).version = s.version + 1) ∧
    (∀ (s : ProjectedSection) (c : String) (l : Bool) (u : Option String)
        (now : Nat),
      (s.finish_editing c l u now).version = s.version + 1) ∧
    (∀ (s : ProjectedSection) (v now : Nat),
      (s.revert_to_version v now).1 = true →
      (s.revert_to_version v now).2.version = s.version + 1) ∧
    (∀ (p : DocumentProjection) (ids : List String) (m : UpdateMode)
        (cs : String) (now : Nat),
      (p.mark_updated ids m cs now).version = p.version + 1) := by
  refine ⟨?_, ?_, ?_, ?_⟩
  · intro s c ids trig now
    unfold ProjectedSection.update_content
    split
    · simp [(saveToHistory_fields s trig none now).1]
    · simp
  · intro s c l u now
    unfold ProjectedSection.finish_editing
    split <;> simp [(saveToHistory_fields s "manual_edit" u now).1]
  · intro s v now h
    unfold ProjectedSection.revert_to_version at h ⊢
    cases hf : s.history.find? (fun hh => hh.version = v) with
    | none => simp only [hf] at h; exact absurd h (by simp)
    | some hist =>
      simp only [hf]
      simp [(saveToHistory_fields s "revert" none now).1]
  · intro p ids m cs now
    exact mark_updated_version p ids m cs now

/-- Concrete instance of C4 with the revert hypothesis discharged. -/
theorem claim_C4_witness :
    ((c4sec.revert_to_version 1 5).1 = true) ∧
    ((c4sec.revert_to_version 1 5).2.version = 3) :=
  ⟨by rfl, claim_C4_version_monotonic.2.2.1 c4sec 1 5 (by rfl)⟩

/-- C5 counterexample: on a section whose current content is empty,
`revert_to_version` succeeds and restores the target entry but pushes
nothing to history (`_save_to_history` returns early on empty content), so
the revert is not itself reversible: no history entry records the
pre-revert version 2. -/
theorem claim_C5_counterexample :
    (c5sec.revert_to_version 1 7).1 = true ∧
    (c5sec.revert_to_version 1 7).2.content = "old words" ∧
    (c5sec.revert_to_version 1 7).2.history = c5sec.history ∧
    ((c5sec.revert_to_version 1 7).2.history.find?
      (fun h => h.version = 2)) = none := by
  refine ⟨rfl, rfl, rfl, rfl⟩

/-- C5 amended: `revert_to_version(n)` returns not-found and leaves the
section unchanged when no history entry has version `n`; otherwise it
restores the first matching entry's content, summary and source content
ids and increments the version by 1, and it first pushes the current
state to history only when the current content is non-empty (an
empty-content state is not snapshotted, so such a revert is not itself
reversible). -/
theorem claim_C5_amended (s : ProjectedSection) (v now : Nat) :
    (s.history.find? (fun h => h.version = v) = none →
      s.revert_to_version v now = (false, s)) ∧
    (∀ hist, s.history.find? (fun h => h.version = v) = some hist →
      (s.revert_to_version v now).1 = true ∧
      (s.revert_to_version v now).2.content = hist.content ∧
      (s.revert_to_version v now).2.summary = hist.summary ∧
      (s.revert_to_version v now).2.source_content_ids =
        hist.source_content_ids ∧
      (s.revert_to_version v now).2.version = s.version + 1 ∧
      (s.revert_to_version v now).2.history =
        (if s.content = "" then s.history
         else pyKeepLast 10
           (s.history ++ [s.historySnapshot "revert" none now]))) := by
  constructor
  · intro hf
    unfold ProjectedSection.revert_to_version
    rw [hf]
  · intro hist hf
    unfold ProjectedSection.revert_to_version
    rw [hf]
    refine ⟨rfl, rfl, rfl, rfl, ?_, ?_⟩
    · exact congrArg (· + 1) (saveToHistory_fields s "revert" none now).1
    · exact saveToHistory_history s "revert" none now

/-- Concrete instance of the amended C5 with its hypotheses discharged. -/
theorem claim_C5_witness :
    (c5wsec.revert_to_version 2 9).1 = true ∧
    (c5wsec.revert_to_version 2 9).2.content = "prev" ∧
    (c5wsec.revert_to_version 2 9).2.version = 4 :=
  have h := (claim_C5_amended c5wsec 2 9).2
    { version := 2, content := "prev" } (by rfl)
  ⟨h.1, h.2.1, h.2.2.2.2.1⟩

/-- C6: `add_theme` with a case-insensitive name match merges into the
first matching theme (appending evidence and source ids, bumping strength
by 0.1 capped at 1) without creating a duplicate entry; with no match the
candidate is appended; adding a theme twice (e.g. "Family" then "family")
over a theme list with no prior match yields exactly one matching theme
whose evidence is the concatenation of both and whose strength is
non-decreasing and at most 1. -/
theorem claim_C6_theme_merge :
    (∀ (themes : List DiscoveredTheme) (t : DiscoveredTheme),
      (∀ e ∈ themes, pyLower e.theme ≠ pyLower t.theme) →
      addThemeList themes t = themes ++ [t]) ∧
    (∀ (pre : List DiscoveredTheme) (e : DiscoveredTheme)
        (post : List DiscoveredTheme) (t : DiscoveredTheme),
      (∀ x ∈ pre, pyLower x.theme ≠ pyLower t.theme) →
      pyLower e.theme = pyLower t.theme →
      addThemeList (pre ++ e :: post) t = pre ++ mergeTheme e t :: post ∧
      (addThemeList (pre ++ e :: post) t).length =
        (pre ++ e :: post).length ∧
      (mergeTheme e t).theme = e.theme ∧
      (mergeTheme e t).evidence = e.evidence ++ t.evidence ∧
      (mergeTheme e t).source_content_ids =
        e.source_content_ids ++ t.source_content_ids ∧
      (mergeTheme e t).strength = min 1 (e.strength + 1/10) ∧
      (mergeTheme e t).strength ≤ 1 ∧
      (e.strength ≤ 1 → e.strength ≤ (mergeTheme e t).strength)) ∧
    (∀ (themes : List DiscoveredTheme) (t1 t2 : DiscoveredTheme),
      (∀ e ∈ themes, pyLower e.theme ≠ pyLower t1.theme) →
      pyLower t2.theme = pyLower t1.theme →
      addThemeList (addThemeList themes t1) t2 =
        themes ++ [mergeTheme t1 t2] ∧
      ((addThemeList (addThemeList themes t1) t2).filter
        (fun e => pyLower e.theme = pyLower t1.theme)).length = 1) := by
  refine ⟨addThemeList_no_match, ?_, ?_⟩
  · intro pre e post t hpre he
    have hmain := addThemeList_first_match pre e post t hpre he
    have hlen : (addThemeList (pre ++ e :: post) t).length =
        (pre ++ e :: post).length := by
      rw [hmain]; simp
    have hmono : e.strength ≤ 1 →
        e.strength ≤ (mergeTheme e t).strength := by
      intro hs
      have h110 : e.strength ≤ e.strength + 1/10 := by linarith
      exact le_min hs h110
    exact ⟨hmain, hlen, rfl, rfl, rfl, rfl, min_le_left _ _, hmono⟩
  · intro themes t1 t2 hno hmatch
    have h1 : addThemeList themes t1 = themes ++ [t1] :=
      addThemeList_no_match themes t1 hno
    have hpre2 : ∀ x ∈ themes, pyLower x.theme ≠ pyLower t2.theme := by
      intro x hx
      rw [hmatch]
      exact hno x hx
    have h2 := addThemeList_first_match themes t1 [] t2 hpre2
      (by rw [hmatch])
    rw [h1]
    refine ⟨h2, ?_⟩
    rw [h2, List.filter_append]
    have hnil : themes.filter
        (fun e => decide (pyLower e.theme = pyLower t1.theme)) = [] := by
      rw [List.filter_eq_nil_iff]
      intro a ha
      simp only [decide_eq_true_eq]
      exact hno a ha
    rw [hnil]
    simp [mergeTheme]

/-- Concrete instance of C6 with its hypotheses discharged: "Family" added
twice yields one merged theme with concatenated evidence and bumped,
capped strength. -/
theorem claim_C6_witness :
    addThemeList (addThemeList [] c6t1) c6t2 = [mergeTheme c6t1 c6t2] ∧
    (mergeTheme c6t1 c6t2).evidence = ["grew up close", "sunday dinners"] ∧
    (mergeTheme c6t1 c6t2).strength = 3/5 :=
  have h := claim_C6_theme_merge.2.2 [] c6t1 c6t2 (by simp) (by rfl)
  ⟨by simpa using h.1, by rfl, by norm_num [mergeTheme, c6t1]⟩

/-- C1: a locked section is left exactly as it was by an update pass in
any mode (in particular its content, summary and version are unchanged),
and it never appears in either candidate set (`get_regeneratable_sections`
or `get_stale_sections`). -/
theorem claim_C1_lock_inviolability (ai : Option Synth)
    (store : List ContentItem) (pool : ContentPool)
    (proj : DocumentProjection) (mode : UpdateMode) (now : Nat) (i : Nat)
    (s : ProjectedSection) (hs : proj.sections[i]? = some s)
    (hlock : s.state = .locked) :
    (update_projection ai store pool proj mode now).sections[i]? = some s ∧
    s ∉ proj.get_regeneratable_sections ∧
    (∀ ids, s ∉ proj.get_stale_sections ids) := by
  have hcr : s.can_regenerate = false := by
    rw [ProjectedSection.can_regenerate, hlock]; rfl
  refine ⟨?_, ?_, ?_⟩
  · rw [update_projection_sections, List.getElem?_map, hs]
    simp [candidatePred_locked mode _ s hlock]
  · intro hmem
    rw [DocumentProjection.get_regeneratable_sections, List.mem_filter] at hmem
    rw [hcr] at hmem
    exact absurd hmem.2 (by simp)
  · intro ids hmem
    rw [DocumentProjection.get_stale_sections, List.mem_filter] at hmem
    rw [Bool.and_eq_true] at hmem
    rw [hcr] at hmem
    exact absurd hmem.2.1 (by simp)

/-- Concrete instance of C1 with its hypotheses discharged: a REGENERATE
pass leaves the locked section untouched. -/
theorem claim_C1_witness :
    (update_projection none [] c1pool c1proj .regenerate 3).sections[0]? =
      some c1sec ∧
    c1sec ∉ c1proj.get_regeneratable_sections :=
  have h := claim_C1_lock_inviolability none [] c1pool c1proj .regenerate 3 0
    c1sec (by rfl) (by rfl)
  ⟨h.1, h.2.1⟩

/-- C2 counterexample: with a probe capability whose integrate call echoes
its new-content argument, an EVOLVE update of a section whose snapshot
already covers item "c1" stores "T1\n\nT2" — the joined texts of the FULL
filtered item list — while the delta's text is just "T2"; so the integrate
call received the full set, not the delta. -/
theorem claim_C2_counterexample :
    (updateSection (some c2probe) c2proj c2sec .evolve [c2item1, c2item2]
      3).content = "T1\n\nT2" ∧
    String.intercalate "\n\n"
      (extractTexts (deltaItems c2sec [c2item1, c2item2])) = "T2" ∧
    ("T1\n\nT2" : String) ≠ "T2" := by
  refine ⟨rfl, rfl, by decide⟩

/-- C2 amended: under EVOLVE the integrate call receives the section's
existing content together with the joined texts of the FULL filtered
content item list (not the delta of new items), and the section's snapshot
is set to the full list's ids. -/
theorem claim_C2_evolve_full_set (ai : Synth) (proj : DocumentProjection)
    (sec : ProjectedSection) (items : List ContentItem) (now : Nat)
    (hne : items ≠ []) (hex : sec.content ≠ "") :
    (updateSection (some ai) proj sec .evolve items now).content =
      ai.regen_section sec.title sec.content
        (String.intercalate "\n\n" (extractTexts items))
        (styleGuidance proj.config) ∧
    (updateSection (some ai) proj sec .evolve items
      now).last_content_snapshot = items.map (fun c => c.id) := by
  constructor
  · show (sec.update_content
      (evolveSectionContent (some ai) sec.title sec.content items
        proj.config proj.context) _ _ _).content = _
    rw [(update_content_fields _ _ _ _ _).1]
    unfold evolveSectionContent
    rw [if_neg hne]
    dsimp only
    rw [if_pos hex]
  · exact (update_content_fields _ _ _ _ _).2.2.1

/-- Concrete instance of the amended C2 with its hypotheses discharged. -/
theorem claim_C2_witness :
    ([c2item1, c2item2] ≠ ([] : List ContentItem)) ∧
    c2sec.content ≠ "" ∧
    (updateSection (some c2probe) c2proj c2sec .evolve [c2item1, c2item2]
      3).content =
      c2probe.regen_section c2sec.title c2sec.content
        (String.intercalate "\n\n" (extractTexts [c2item1, c2item2]))
        (styleGuidance c2proj.config) :=
  ⟨by simp, by decide,
   (claim_C2_evolve_full_set c2probe c2proj c2sec [c2item1, c2item2] 3
     (by simp) (by decide)).1⟩

/-- C7 counterexample: the pool's filtered id set is ["c1"] but no content
item with that id is loaded, so a REGENERATE pass touches the section (its
version advances) yet records an empty snapshot, and the section still
reports stale against the very id set the pass used. -/
theorem claim_C7_counterexample :
    ((update_projection none [] c7pool c7proj .regenerate 5).sections.map
      (fun s => s.version)) = [2] ∧
    ((update_projection none [] c7pool c7proj .regenerate 5).sections.map
      (fun s => s.last_content_snapshot)) = [[]] ∧
    ((update_projection none [] c7pool c7proj .regenerate 5).sections.map
      (fun s => s.is_stale ["c1"])) = [true] := by
  refine ⟨rfl, rfl, rfl⟩

/-- C7 amended: `is_stale` is true iff the symmetric difference between
the snapshot and the given ids is non-empty; and provided every filtered
content id has a loaded content item, a section touched by a REGENERATE or
REFRESH pass reports not stale against the id set the pass used (without
that proviso ids lacking items are dropped from the snapshot and the
section can remain stale). -/
theorem claim_C7_staleness :
    (∀ (sec : ProjectedSection) (ids : List String),
      sec.is_stale ids = true ↔
        ∃ x, (x ∈ ids ∧ x ∉ sec.last_content_snapshot) ∨
             (x ∈ sec.last_content_snapshot ∧ x ∉ ids)) ∧
    (∀ (ai : Option Synth) (store : List ContentItem) (pool : ContentPool)
        (proj : DocumentProjection) (mode : UpdateMode) (now i : Nat)
        (s : ProjectedSection),
      (∀ cid ∈ pool.content_ids, ∃ it ∈ store, it.id = cid) →
      (mode = .regenerate ∨ mode = .refresh) →
      proj.sections[i]? = some s →
      candidatePred mode pool.content_ids s = true →
      ∃ r, (update_projection ai store pool proj mode now).sections[i]? =
          some r ∧
        r.is_stale pool.content_ids = false) := by
  constructor
  · intro sec ids
    unfold ProjectedSection.is_stale
    rw [Bool.not_eq_true']
    rw [← Bool.not_eq_true, idSetEq_eq_true]
    rw [not_and_or]
    constructor
    · intro h
      rcases h with h | h
      · push_neg at h
        obtain ⟨x, hx, hnx⟩ := h
        exact ⟨x, Or.inl ⟨hx, hnx⟩⟩
      · push_neg at h
        obtain ⟨x, hx, hnx⟩ := h
        exact ⟨x, Or.inr ⟨hx, hnx⟩⟩
    · rintro ⟨x, h | h⟩
      · left; push_neg; exact ⟨x, h.1, h.2⟩
      · right; push_neg; exact ⟨x, h.1, h.2⟩
  · intro ai store pool proj mode now i s hres hmode hs hcand
    have hids : (resolveItems store pool.content_ids).map (fun c => c.id) =
        pool.content_ids := resolveItems_ids store pool.content_ids hres
    rw [update_projection_sections, List.getElem?_map, hs]
    refine ⟨_, rfl, ?_⟩
    dsimp only
    rw [if_pos hcand]
    rcases hmode with h | h <;> subst h
    · show ((s.update_content _ ((resolveItems store pool.content_ids).map
        (fun c => c.id)) "regeneration" now).is_stale pool.content_ids) =
        false
      unfold ProjectedSection.is_stale
      rw [(update_content_fields _ _ _ _ _).2.2.1, hids, idSetEq_refl]
      rfl
    · show ((if s.is_stale ((resolveItems store pool.content_ids).map
        (fun c => c.id)) then _ else s).is_stale pool.content_ids) = false
      rw [hids]
      have hstale : s.is_stale pool.content_ids = true := by
        have hc := hcand
        simp only [candidatePred, Bool.and_eq_true] at hc
        exact hc.2
      rw [if_pos hstale]
      unfold ProjectedSection.is_stale
      rw [(update_content_fields _ _ _ _ _).2.2.1, idSetEq_refl]
      rfl

/-- Concrete instance of the amended C7 with its hypotheses discharged:
with the item loaded, a REFRESH pass leaves the touched section not
stale. -/
theorem claim_C7_witness :
    c7wsec.is_stale ["c1"] = true ∧
    ∃ r, (update_projection none [c7witem] c7wpool c7wproj .refresh 4
        ).sections[0]? = some r ∧
      r.is_stale ["c1"] = false :=
  ⟨by rfl,
   claim_C7_staleness.2 none [c7witem] c7wpool c7wproj .refresh 4 0 c7wsec
     (by intro cid hc
         refine ⟨c7witem, by simp, ?_⟩
         simp [c7wpool] at hc
         simp [hc, c7witem])
     (Or.inr rfl) (by rfl) (by rfl)⟩

/-- C8 counterexample: a successful revert through the service changes the
section content to one word, but the projection still reports
`word_count = 3` and its `updated_at` is not refreshed — `revert_section`
never recomputes the stats. -/
theorem claim_C8_counterexample :
    (revertSection c8proj "s1" 1 9).1 = true ∧
    ((revertSection c8proj "s1" 1 9).2.sections.map
      (fun s => pyWordCount s.content)).sum = 1 ∧
    (revertSection c8proj "s1" 1 9).2.word_count = 3 ∧
    (revertSection c8proj "s1" 1 9).2.updated_at = 0 := by
  refine ⟨rfl, rfl, rfl, rfl⟩

/-- C8 amended: after a full update pass (`update_projection`) or a
successful section edit through the service (`edit_section`), the
projection's `word_count` equals the sum of whitespace-delimited token
counts over all section contents and `updated_at` is the mutation time;
`revert_section` and section-scoped updates do not restore this. -/
theorem claim_C8_stats_consistency :
    (∀ (ai : Option Synth) (store : List ContentItem) (pool : ContentPool)
        (proj : DocumentProjection) (mode : UpdateMode) (now : Nat),
      (update_projection ai store pool proj mode now).word_count =
        ((update_projection ai store pool proj mode now).sections.map
          (fun s => pyWordCount s.content)).sum ∧
      (update_projection ai store pool proj mode now).updated_at = now) ∧
    (∀ (proj : DocumentProjection) (sid c : String) (l : Bool)
        (u : Option String) (now : Nat),
      (editSection proj sid c l u now).1 = true →
      (editSection proj sid c l u now).2.word_count =
        ((editSection proj sid c l u now).2.sections.map
          (fun s => pyWordCount s.content)).sum ∧
      (editSection proj sid c l u now).2.updated_at = now) := by
  constructor
  · intro ai store pool proj mode now
    exact ⟨(mark_updated_stats _ _ _ _ _).1, (mark_updated_stats _ _ _ _ _).2⟩
  · intro proj sid c l u now h
    unfold editSection at h ⊢
    cases hf : proj.get_section sid with
    | none =>
      rw [hf] at h
      simp at h
    | some s =>
      dsimp only
      refine ⟨?_, (updateStats_spec _ _).2.1⟩
      rw [(updateStats_spec _ _).2.2, (updateStats_spec _ _).1]

/-- Concrete instance of the amended C8 with its hypothesis discharged. -/
theorem claim_C8_witness :
    (editSection c8wproj "s1" "new words here" true none 4).1 = true ∧
    (editSection c8wproj "s1" "new words here" true none 4).2.word_count =
      ((editSection c8wproj "s1" "new words here" true none
        4).2.sections.map (fun s => pyWordCount s.content)).sum ∧
    (editSection c8wproj "s1" "new words here" true none 4).2.updated_at =
      4 :=
  have h := claim_C8_stats_consistency.2 c8wproj "s1" "new words here" true
    none 4 (by rfl)
  ⟨by rfl, h.1, h.2⟩

/-- C9 counterexample: an unknown style (or length) value supplied to the
config parser is silently replaced by the default (THEMATIC / STANDARD) —
the parse returns a normal config and surfaces no error at all. -/
theorem claim_C9_counterexample :
    parseConfig { style := some "sideways" } = parseConfig {} ∧
    (parseConfig { style := some "sideways" }).style =
      ProjectionStyle.thematic ∧
    (parseConfig { length := some "gigantic" }).length =
      ProjectionLength.standard := by
  refine ⟨rfl, rfl, rfl⟩

/-- C9 amended: an unknown update-mode string supplied to the update
handler raises immediately (before any mutation is attempted), while
unknown style, length and default-update-mode values in the generate
path's config parser are silently replaced by the defaults THEMATIC,
STANDARD and EVOLVE rather than surfaced. -/
theorem claim_C9_config_errors :
    (∀ (ai : Option Synth) (store : List ContentItem) (pool : ContentPool)
        (proj : DocumentProjection) (ms : String)
        (ids : Option (List String)) (now : Nat),
      UpdateMode.ofValue ms = none →
      handleUpdateProjection ai store pool proj ms ids now =
        .error ("ValueError: not a valid UpdateMode: " ++ ms)) ∧
    (∀ (d : ConfigDict) (v : String), d.style = some v →
      ProjectionStyle.ofValue v = none →
      (parseConfig d).style = .thematic) ∧
    (∀ (d : ConfigDict) (v : String), d.length = some v →
      ProjectionLength.ofValue v = none →
      (parseConfig d).length = .standard) ∧
    (∀ (d : ConfigDict) (v : String), d.default_update_mode = some v →
      UpdateMode.ofValue v = none →
      (parseConfig d).default_update_mode = .evolve) := by
  refine ⟨?_, ?_, ?_, ?_⟩
  · intro ai store pool proj ms ids now h
    unfold handleUpdateProjection
    rw [h]
  · intro d v hd h
    simp [parseConfig, hd, h]
  · intro d v hd h
    simp [parseConfig, hd, h]
  · intro d v hd h
    simp [parseConfig, hd, h]

/-- Concrete instance of the amended C9 with its hypotheses discharged. -/
theorem claim_C9_witness :
    UpdateMode.ofValue "sideways" = none ∧
    handleUpdateProjection none [] c9pool c9proj "sideways" none 1 =
      .error ("ValueError: not a valid UpdateMode: " ++ "sideways") :=
  ⟨by rfl,
   claim_C9_config_errors.1 none [] c9pool c9proj "sideways" none 1 (by rfl)⟩

/-- C10 counterexample: reordering with an unknown id ahead of a known one
gives the kept section order 1 — the position of its id in the input list
— not the dense index 0 the claim asserts. -/
theorem claim_C10_counterexample :
    ((c10proj.reorder_sections ["x", "a"]).sections.map
      (fun s => (s.id, s.order))) = [("a", 1)] ∧
    ((c10proj.reorder_sections ["x", "a"]).sections.map
      (fun s => s.order)) ≠ [0] := by
  constructor
  · rfl
  · rw [show ((c10proj.reorder_sections ["x", "a"]).sections.map
      (fun s => s.order)) = [1] from rfl]
    decide

theorem dictLookup_mem (sections : List ProjectedSection) (sid : String)
    (s : ProjectedSection)
    (h : DocumentProjection.dictLookup sections sid = some s) :
    s ∈ sections ∧ s.id = sid := by
  unfold DocumentProjection.dictLookup at h
  constructor
  · have hm := List.mem_of_find?_eq_some h
    exact (List.mem_reverse).mp hm
  · have hp := List.find?_some h
    simpa using hp

theorem dictLookup_none (sections : List ProjectedSection) (sid : String)
    (h : DocumentProjection.dictLookup sections sid = none) :
    sid ∉ sections.map (fun s => s.id) := by
  unfold DocumentProjection.dictLookup at h
  intro hmem
  rw [List.mem_map] at hmem
  obtain ⟨s, hs, hid⟩ := hmem
  have hfind := List.find?_eq_none.mp h s ((List.mem_reverse).mpr hs)
  simp [hid] at hfind

theorem reorder_ids_aux (sections : List ProjectedSection)
    (ids : List String) (n : Nat) :
    ((ids.enumFrom n).filterMap (fun pr =>
      match DocumentProjection.dictLookup sections pr.2 with
      | some s => some { s with order := pr.1 }
      | none => none)).map (fun s => s.id) =
    ids.filter (fun sid => sid ∈ sections.map (fun s => s.id)) := by
  induction ids generalizing n with
  | nil => rfl
  | cons x xs ih =>
    simp only [List.enumFrom, List.filterMap_cons, List.filter_cons]
    cases hl : DocumentProjection.dictLookup sections x with
    | some s =>
      have hm := dictLookup_mem sections x s hl
      have hmem : x ∈ sections.map (fun t => t.id) :=
        List.mem_map.mpr ⟨s, hm.1, hm.2⟩
      simp [hl, hmem, hm.2, ih]
    | none =>
      have hnm := dictLookup_none sections x hl
      simp [hl, hnm, ih]

theorem reorder_order_spec (p : DocumentProjection) (ids : List String) :
    ∀ r ∈ (p.reorder_sections ids).sections,
      ids[r.order]? = some r.id ∧ ∃ s ∈ p.sections, s.id = r.id := by
  intro r hr
  unfold DocumentProjection.reorder_sections at hr
  dsimp only at hr
  rw [List.mem_filterMap] at hr
  obtain ⟨pr, hmem, hf⟩ := hr
  obtain ⟨i, sid⟩ := pr
  dsimp only at hf
  cases hl : DocumentProjection.dictLookup p.sections sid with
  | none => rw [hl] at hf; simp at hf
  | some s =>
    rw [hl] at hf
    simp only [Option.some.injEq] at hf
    subst hf
    have hm := dictLookup_mem p.sections sid s hl
    have hg : ids[i]? = some sid := List.mk_mem_enum_iff_getElem?.mp hmem
    refine ⟨?_, ⟨s, hm.1, ?_⟩⟩
    · show ids[i]? = some s.id
      rw [hm.2]
      exact hg
    · exact hm.2.symm ▸ rfl

/-- C10 amended: `reorder_sections(section_ids)` keeps exactly the
sections whose ids appear in the given list (in list order, dropping every
section not listed and ignoring ids that match no section), and each kept
section's `order` is the position of its id in the *input* list — so the
orders are dense 0..k-1 only when every given id matches a section. -/
theorem claim_C10_reorder (p : DocumentProjection) (ids : List String) :
    (p.reorder_sections ids).sections.map (fun s => s.id) =
      ids.filter (fun sid => sid ∈ p.sections.map (fun s => s.id)) ∧
    (∀ r ∈ (p.reorder_sections ids).sections,
      ids[r.order]? = some r.id ∧ ∃ s ∈ p.sections, s.id = r.id) := by
  constructor
  · exact reorder_ids_aux p.sections ids 0
  · exact reorder_order_spec p ids

/-- Concrete instance of the amended C10 with its membership hypothesis
discharged: reordering with the known id alone keeps that section at
position 0. -/
theorem claim_C10_witness :
    c10sec ∈ (c10proj.reorder_sections ["a"]).sections ∧
    (["a"] : List String)[c10sec.order]? = some c10sec.id :=
  have hmem : c10sec ∈ (c10proj.reorder_sections ["a"]).sections := by decide
  ⟨hmem, ((claim_C10_reorder c10proj ["a"]).2 c10sec hmem).1⟩

